import Mathlib

/-!
Verification of the gradus temperature-conversion programs
(`src/gradus_enhanced.c` and `src/gradus_fixed.c`).

Machine doubles are modelled as exact rationals (`ℚ`): every arithmetic
operation of the conversion engine is an addition, subtraction,
multiplication or division by a rational constant, so the real-number
semantics of the C expressions is captured exactly.  C strings are
modelled as `String`.  Functions that can call `exit`/`Usage` on an
error path are modelled as `Except ConvError ℚ`.
-/

/-- The `Temperature` enum, identical in both C files: the eight scales
plus the `UNKNOWN` sentinel. -/
inductive Temperature : Type
  | CELSIUS
  | FAHRENHEIT
  | KELVIN
  | RANKINE
  | REAUMUR
  | DELISLE
  | NEWTON
  | ROMER
  | UNKNOWN
  deriving DecidableEq, Repr

/-- `FAHRENHEIT_RATIO` = 9.0 / 5.0. -/
def FAHRENHEIT_RATIO : ℚ := 9 / 5

/-- `CELSIUS_RATIO` = 5.0 / 9.0. -/
def CELSIUS_RATIO : ℚ := 5 / 9

/-- `ABSOLUTE_ZERO_CELSIUS` = -273.15. -/
def ABSOLUTE_ZERO_CELSIUS : ℚ := -273.15

/-- `ABSOLUTE_ZERO_FAHRENHEIT` = -459.67. -/
def ABSOLUTE_ZERO_FAHRENHEIT : ℚ := -459.67

/-- `REAUMUR_RATIO` = 4.0 / 5.0. -/
def REAUMUR_RATIO : ℚ := 4 / 5

/-- `DELISLE_RATIO` = 3.0 / 2.0. -/
def DELISLE_RATIO : ℚ := 3 / 2

/-- `NEWTON_RATIO` = 33.0 / 100.0. -/
def NEWTON_RATIO : ℚ := 33 / 100

/-- `ROMER_RATIO` = 21.0 / 40.0. -/
def ROMER_RATIO : ℚ := 21 / 40

/-- `ROMER_OFFSET` = 7.5. -/
def ROMER_OFFSET : ℚ := 7.5

/-- `DELISLE_BASE` = 100.0. -/
def DELISLE_BASE : ℚ := 100

/-- `Celsius_to_Fahrenheit`, identical in both C files. -/
def Celsius_to_Fahrenheit (c : ℚ) : ℚ := c * FAHRENHEIT_RATIO + 32

/-- `Fahrenheit_to_Celsius`, identical in both C files. -/
def Fahrenheit_to_Celsius (f : ℚ) : ℚ := (f - 32) * CELSIUS_RATIO

/-- `Celsius_to_Kelvin`, identical in both C files. -/
def Celsius_to_Kelvin (c : ℚ) : ℚ := c - ABSOLUTE_ZERO_CELSIUS

/-- `Kelvin_to_Celsius`, identical in both C files. -/
def Kelvin_to_Celsius (k : ℚ) : ℚ := k + ABSOLUTE_ZERO_CELSIUS

/-- `Celsius_to_Rankine`, identical in both C files. -/
def Celsius_to_Rankine (c : ℚ) : ℚ := (c - ABSOLUTE_ZERO_CELSIUS) * FAHRENHEIT_RATIO

/-- `Rankine_to_Celsius`, identical in both C files
(`gradus_enhanced.c` lines 124-126, `gradus_fixed.c` lines 105-107). -/
def Rankine_to_Celsius (r : ℚ) : ℚ := (r - ABSOLUTE_ZERO_FAHRENHEIT + 32) * CELSIUS_RATIO

/-- `Celsius_to_Reaumur`, identical in both C files. -/
def Celsius_to_Reaumur (c : ℚ) : ℚ := c * REAUMUR_RATIO

/-- `Reaumur_to_Celsius`, identical in both C files. -/
def Reaumur_to_Celsius (re : ℚ) : ℚ := re / REAUMUR_RATIO

/-- `Celsius_to_Delisle`, identical in both C files. -/
def Celsius_to_Delisle (c : ℚ) : ℚ := (DELISLE_BASE - c) * DELISLE_RATIO

/-- `Delisle_to_Celsius`, identical in both C files. -/
def Delisle_to_Celsius (de : ℚ) : ℚ := DELISLE_BASE - de / DELISLE_RATIO

/-- `Celsius_to_Newton`, identical in both C files. -/
def Celsius_to_Newton (c : ℚ) : ℚ := c * NEWTON_RATIO

/-- `Newton_to_Celsius`, identical in both C files. -/
def Newton_to_Celsius (n : ℚ) : ℚ := n / NEWTON_RATIO

/-- `Celsius_to_Romer`, identical in both C files. -/
def Celsius_to_Romer (c : ℚ) : ℚ := c * ROMER_RATIO + ROMER_OFFSET

/-- `Romer_to_Celsius`, identical in both C files. -/
def Romer_to_Celsius (ro : ℚ) : ℚ := (ro - ROMER_OFFSET) / ROMER_RATIO

/-- The `valid_scales` whitelist array of `Is_valid_scale`, identical in
both C files (19 literal strings, NULL terminator dropped). -/
def valid_scales : List String :=
  ["C", "c", "F", "f", "K", "k", "R", "r",
   "Re", "re", "RE", "De", "de", "DE",
   "N", "n", "Ro", "ro", "RO"]

/-- `Is_valid_scale`, identical in both C files: walk the whitelist and
return 1 (`true`) on the first `strcmp` match, 0 (`false`) otherwise. -/
def Is_valid_scale (scale : String) : Bool :=
  valid_scales.any (fun v => scale = v)

/-- `Get_type`, identical in both C files: the chain of `strcmp`
comparisons mapping an identifier to a `Temperature` tag. -/
def Get_type (scale_name : String) : Temperature :=
  if scale_name = "C" ∨ scale_name = "c" then .CELSIUS
  else if scale_name = "F" ∨ scale_name = "f" then .FAHRENHEIT
  else if scale_name = "K" ∨ scale_name = "k" then .KELVIN
  else if scale_name = "R" ∨ scale_name = "r" then .RANKINE
  else if scale_name = "Re" ∨ scale_name = "re" ∨ scale_name = "RE" then .REAUMUR
  else if scale_name = "De" ∨ scale_name = "de" ∨ scale_name = "DE" then .DELISLE
  else if scale_name = "N" ∨ scale_name = "n" then .NEWTON
  else if scale_name = "Ro" ∨ scale_name = "ro" ∨ scale_name = "RO" then .ROMER
  else .UNKNOWN

/-- Which argument of `Convert_temperature` failed to resolve. -/
inductive Side : Type
  | source
  | target
  deriving DecidableEq, Repr

/-- The error outcomes of `Convert_temperature`: the `Usage`/`exit`
paths, made explicit as a typed result. -/
inductive ConvError : Type
  | UnknownScale (side : Side) (id : String)
  | NegativeAbsoluteTemperature (scale : String) (value : ℚ)
  deriving DecidableEq, Repr

/-- The first `switch (source_type)` of `Convert_temperature`, identical
in both C files: normalize the input value to Celsius (the `default`
case sets `celsius = 0`). -/
def source_switch (source_type : Temperature) (value : ℚ) : ℚ :=
  match source_type with
  | .CELSIUS => value
  | .FAHRENHEIT => Fahrenheit_to_Celsius value
  | .KELVIN => Kelvin_to_Celsius value
  | .RANKINE => Rankine_to_Celsius value
  | .REAUMUR => Reaumur_to_Celsius value
  | .DELISLE => Delisle_to_Celsius value
  | .NEWTON => Newton_to_Celsius value
  | .ROMER => Romer_to_Celsius value
  | .UNKNOWN => 0

/-- The second `switch (target_type)` of `Convert_temperature`,
identical in both C files: project Celsius to the target scale; the
`default` case reports an unknown target and calls `Usage` (modelled as
an error result). -/
def target_switch (target : String) (target_type : Temperature) (celsius : ℚ) :
    Except ConvError ℚ :=
  match target_type with
  | .CELSIUS => .ok celsius
  | .FAHRENHEIT => .ok (Celsius_to_Fahrenheit celsius)
  | .KELVIN => .ok (Celsius_to_Kelvin celsius)
  | .RANKINE => .ok (Celsius_to_Rankine celsius)
  | .REAUMUR => .ok (Celsius_to_Reaumur celsius)
  | .DELISLE => .ok (Celsius_to_Delisle celsius)
  | .NEWTON => .ok (Celsius_to_Newton celsius)
  | .ROMER => .ok (Celsius_to_Romer celsius)
  | .UNKNOWN => .error (.UnknownScale .target target)

namespace Enhanced

/-- `Convert_temperature` of `gradus_enhanced.c` (lines 302-381): resolve
both identifiers; reject an unknown source, then an unknown target, then
a negative value on an absolute source scale; then pivot through
Celsius. -/
def Convert_temperature (value : ℚ) (source target : String) : Except ConvError ℚ :=
  if Get_type source = .UNKNOWN then .error (.UnknownScale .source source)
  else if Get_type target = .UNKNOWN then .error (.UnknownScale .target target)
  else if (Get_type source = .KELVIN ∨ Get_type source = .RANKINE) ∧ value < 0 then
    .error (.NegativeAbsoluteTemperature source value)
  else target_switch target (Get_type target) (source_switch (Get_type source) value)

end Enhanced

namespace Fixed

/-- `Convert_temperature` of `gradus_fixed.c` (lines 232-305): reject an
unknown source, then a negative value on an absolute source scale, then
pivot through Celsius; an unknown target is only caught by the `default`
case of the second switch. -/
def Convert_temperature (value : ℚ) (source target : String) : Except ConvError ℚ :=
  if Get_type source = .UNKNOWN then .error (.UnknownScale .source source)
  else if (Get_type source = .KELVIN ∨ Get_type source = .RANKINE) ∧ value < 0 then
    .error (.NegativeAbsoluteTemperature source value)
  else target_switch target (Get_type target) (source_switch (Get_type source) value)

end Fixed

/-- The display-layer negative-zero suppression, appearing identically in
`gradus_enhanced.c` (`Process_array` lines 403-405 and `main`) and
`gradus_fixed.c` (`main` lines 359-361):
`if (fabs(result) < 0.005 && result != 0.0) result = 0.0;`. -/
def suppress_negative_zero (result : ℚ) : ℚ :=
  if |result| < 0.005 ∧ result ≠ 0 then 0 else result

/-- Modelled from the spec: the display layer's 2-decimal fixed
formatting (`printf("%.2f", r)` in both C files); `printf` itself is C
library code outside this repository.  The magnitude is rounded to the
nearest hundredth (half away from zero) and a minus sign is prefixed
exactly when the value is negative, so a negative value whose magnitude
rounds to zero renders as `"-0.00"`. -/
def format2 (q : ℚ) : String :=
  let n : ℤ := ⌊|q| * 100 + 1 / 2⌋
  let frac : ℤ := n % 100
  (if q < 0 then "-" else "") ++ toString (n / 100) ++ "." ++
    (if frac < 10 then "0" ++ toString frac else toString frac)

/-! ## Evaluation lemmas for the scale registry -/

theorem Get_type_C : Get_type "C" = .CELSIUS := by decide

theorem Get_type_F : Get_type "F" = .FAHRENHEIT := by decide

theorem Get_type_K : Get_type "K" = .KELVIN := by decide

theorem Get_type_R : Get_type "R" = .RANKINE := by decide

theorem Get_type_X : Get_type "X" = .UNKNOWN := by decide

/-- On argument lists that pass all the guards, `Convert_temperature` of
`gradus_enhanced.c` is the two-stage pivot through Celsius. -/
theorem Enhanced_Convert_eval (v : ℚ) (src tgt : String)
    (hs : ¬ Get_type src = .UNKNOWN) (ht : ¬ Get_type tgt = .UNKNOWN)
    (hg : ¬ ((Get_type src = .KELVIN ∨ Get_type src = .RANKINE) ∧ v < 0)) :
    Enhanced.Convert_temperature v src tgt =
      target_switch tgt (Get_type tgt) (source_switch (Get_type src) v) := by
  unfold Enhanced.Convert_temperature
  rw [if_neg hs, if_neg ht, if_neg hg]

/-- On argument lists that pass all the guards, `Convert_temperature` of
`gradus_fixed.c` is the two-stage pivot through Celsius. -/
theorem Fixed_Convert_eval (v : ℚ) (src tgt : String)
    (hs : ¬ Get_type src = .UNKNOWN)
    (hg : ¬ ((Get_type src = .KELVIN ∨ Get_type src = .RANKINE) ∧ v < 0)) :
    Fixed.Convert_temperature v src tgt =
      target_switch tgt (Get_type tgt) (source_switch (Get_type src) v) := by
  unfold Fixed.Convert_temperature
  rw [if_neg hs, if_neg hg]

/-- The target switch returns a value for every known target scale. -/
theorem target_switch_ok (tgt : String) (t : Temperature) (c : ℚ)
    (h : ¬ t = .UNKNOWN) : ∃ y, target_switch tgt t c = .ok y := by
  cases t
  case UNKNOWN => exact absurd rfl h
  all_goals exact ⟨_, rfl⟩

/-! ## Claims -/

/-- C1.  The round-trip property fails at the Rankine scale: the code's
`Rankine_to_Celsius` adds the 491.67 offset instead of subtracting it,
so converting 0 °R to Celsius yields 273.15 °C (the correct value is
-273.15 °C), converting that back yields 983.34 °R, and the round-trip
error 983.34 far exceeds the 1e-9 tolerance.  This also contradicts the
program's own printed fixed points (`0°C = 491.67°R` in
`Print_temperature_graph`): converting 491.67 °R to Celsius yields
546.3 °C instead of 0 °C. -/
theorem rankine_roundtrip_violation :
    Enhanced.Convert_temperature 0 "R" "C" = .ok 273.15 ∧
    Enhanced.Convert_temperature 273.15 "C" "R" = .ok 983.34 ∧
    ¬ |(983.34 : ℚ) - 0| ≤ 1e-9 ∧
    Enhanced.Convert_temperature 491.67 "R" "C" = .ok 546.3 := by
  refine ⟨?_, ?_, ?_, ?_⟩
  case refine_3 =>
    rw [sub_zero, abs_of_nonneg (by norm_num : (0 : ℚ) ≤ 983.34)]
    norm_num
  · rw [Enhanced_Convert_eval 0 "R" "C" (by decide) (by decide)
      (fun h => absurd h.2 (lt_irrefl 0)), Get_type_C, Get_type_R]
    simp only [target_switch, source_switch, Except.ok.injEq]
    norm_num [Rankine_to_Celsius, ABSOLUTE_ZERO_FAHRENHEIT, CELSIUS_RATIO]
  · rw [Enhanced_Convert_eval 273.15 "C" "R" (by decide) (by decide)
      (fun h => by rcases h.1 with h1 | h1 <;> exact absurd (Get_type_C.symm.trans h1) (by decide)),
      Get_type_C, Get_type_R]
    simp only [target_switch, source_switch, Except.ok.injEq]
    norm_num [Celsius_to_Rankine, ABSOLUTE_ZERO_CELSIUS, FAHRENHEIT_RATIO]
  · rw [Enhanced_Convert_eval 491.67 "R" "C" (by decide) (by decide)
      (fun h => absurd h.2 (by norm_num)), Get_type_C, Get_type_R]
    simp only [target_switch, source_switch, Except.ok.injEq]
    norm_num [Rankine_to_Celsius, ABSOLUTE_ZERO_FAHRENHEIT, CELSIUS_RATIO]

/-- C2.  The identity-conversion property fails at the Rankine scale:
converting 0 °R to Rankine itself returns 983.34, not 0, because
`Rankine_to_Celsius` adds the 491.67 offset instead of subtracting it.
The same input behaves identically in both C files. -/
theorem rankine_identity_violation :
    Enhanced.Convert_temperature 0 "R" "R" = .ok 983.34 ∧
    Fixed.Convert_temperature 0 "R" "R" = .ok 983.34 ∧
    (983.34 : ℚ) ≠ 0 := by
  refine ⟨?_, ?_, by norm_num⟩
  · rw [Enhanced_Convert_eval 0 "R" "R" (by decide) (by decide)
      (fun h => absurd h.2 (lt_irrefl 0)), Get_type_R]
    simp only [target_switch, source_switch, Except.ok.injEq]
    norm_num [Rankine_to_Celsius, Celsius_to_Rankine, ABSOLUTE_ZERO_FAHRENHEIT,
      ABSOLUTE_ZERO_CELSIUS, CELSIUS_RATIO, FAHRENHEIT_RATIO]
  · rw [Fixed_Convert_eval 0 "R" "R" (by decide)
      (fun h => absurd h.2 (lt_irrefl 0)), Get_type_R]
    simp only [target_switch, source_switch, Except.ok.injEq]
    norm_num [Rankine_to_Celsius, Celsius_to_Rankine, ABSOLUTE_ZERO_FAHRENHEIT,
      ABSOLUTE_ZERO_CELSIUS, CELSIUS_RATIO, FAHRENHEIT_RATIO]

/-- C3.  `Rankine_to_Celsius` computes exactly
`(r - (-459.67) + 32) * 5/9`, which equals `(r + 491.67) * 5/9`. -/
theorem Rankine_to_Celsius_formula (r : ℚ) :
    Rankine_to_Celsius r = (r - (-459.67) + 32) * (5 / 9) ∧
    Rankine_to_Celsius r = (r + 491.67) * (5 / 9) := by
  unfold Rankine_to_Celsius ABSOLUTE_ZERO_FAHRENHEIT CELSIUS_RATIO
  constructor
  · norm_num
  · ring_nf

/-- C4.  The physical-domain guard applies to the source scale only, in
both C files: with value -1, any source resolving to Kelvin or Rankine
and any known target fails with `NegativeAbsoluteTemperature`; any
conversion whose source is known and not an absolute scale succeeds for
every value and every known target; and `convert(-1, Celsius, Kelvin)`
succeeds. -/
theorem domain_guard_source_only :
    (∀ src tgt : String,
      (Get_type src = .KELVIN ∨ Get_type src = .RANKINE) → ¬ Get_type tgt = .UNKNOWN →
      Enhanced.Convert_temperature (-1) src tgt =
          .error (.NegativeAbsoluteTemperature src (-1)) ∧
        Fixed.Convert_temperature (-1) src tgt =
          .error (.NegativeAbsoluteTemperature src (-1))) ∧
    (∀ (v : ℚ) (src tgt : String),
      ¬ Get_type src = .UNKNOWN → ¬ Get_type src = .KELVIN → ¬ Get_type src = .RANKINE →
      ¬ Get_type tgt = .UNKNOWN →
      (∃ y, Enhanced.Convert_temperature v src tgt = .ok y) ∧
        ∃ y, Fixed.Convert_temperature v src tgt = .ok y) ∧
    ∃ y, Enhanced.Convert_temperature (-1) "C" "K" = .ok y := by
  refine ⟨?_, ?_, ?_⟩
  · intro src tgt habs ht
    have hs : ¬ Get_type src = .UNKNOWN := by
      rcases habs with h | h <;> rw [h] <;> exact fun hc => Temperature.noConfusion hc
    have hneg : (-1 : ℚ) < 0 := by norm_num
    constructor
    · unfold Enhanced.Convert_temperature
      rw [if_neg hs, if_neg ht, if_pos ⟨habs, hneg⟩]
    · unfold Fixed.Convert_temperature
      rw [if_neg hs, if_pos ⟨habs, hneg⟩]
  · intro v src tgt hs hk hr ht
    have hg : ¬ ((Get_type src = .KELVIN ∨ Get_type src = .RANKINE) ∧ v < 0) :=
      fun h => h.1.elim hk hr
    rw [Enhanced_Convert_eval v src tgt hs ht hg, Fixed_Convert_eval v src tgt hs hg]
    exact ⟨target_switch_ok tgt (Get_type tgt) _ ht, target_switch_ok tgt (Get_type tgt) _ ht⟩
  · rw [Enhanced_Convert_eval (-1) "C" "K" (by decide) (by decide)
      (fun h => by rcases h.1 with h1 | h1 <;> exact absurd (Get_type_C.symm.trans h1) (by decide))]
    exact target_switch_ok "K" (Get_type "K") _ (by decide)

/-- C4 witness: `convert(-1, "K", "C")` fails with
`NegativeAbsoluteTemperature` in both implementations. -/
theorem domain_guard_source_only_witness :
    Enhanced.Convert_temperature (-1) "K" "C" =
        .error (.NegativeAbsoluteTemperature "K" (-1)) ∧
      Fixed.Convert_temperature (-1) "K" "C" =
        .error (.NegativeAbsoluteTemperature "K" (-1)) :=
  domain_guard_source_only.1 "K" "C" (Or.inl Get_type_K) (by decide)

/-- C5 counterexample: in `gradus_fixed.c` the unknown-target check is
reached only after the physical-domain guard, so `convert(-1, "K", "X")`
fails with `NegativeAbsoluteTemperature`, not `UnknownScale(target)` —
the claim's ordering does not hold there. -/
theorem fixed_unknown_target_after_guard :
    Fixed.Convert_temperature (-1) "K" "X" =
      .error (.NegativeAbsoluteTemperature "K" (-1)) := by
  unfold Fixed.Convert_temperature
  rw [if_neg (by decide : ¬ Get_type "K" = .UNKNOWN),
    if_pos ⟨Or.inl Get_type_K, by norm_num⟩]

/-- C5 amended: in `gradus_enhanced.c`, unknown-scale resolution is
step 1 and precedes the physical-domain check: for every value and every
pair of identifiers, an unresolvable source fails with
`UnknownScale(source)` and an unresolvable target (with a resolvable
source) fails with `UnknownScale(target)`, never with
`NegativeAbsoluteTemperature`; in particular `convert(-1, "K", "X")`
fails with `UnknownScale(target)` there.  In `gradus_fixed.c` the
target check runs only after the guard. -/
theorem enhanced_unknown_scale_first (v : ℚ) (src tgt : String) :
    (Get_type src = .UNKNOWN →
      Enhanced.Convert_temperature v src tgt = .error (.UnknownScale .source src)) ∧
    (¬ Get_type src = .UNKNOWN → Get_type tgt = .UNKNOWN →
      Enhanced.Convert_temperature v src tgt = .error (.UnknownScale .target tgt)) ∧
    Enhanced.Convert_temperature v "K" "X" = .error (.UnknownScale .target "X") := by
  refine ⟨?_, ?_, ?_⟩
  · intro hs
    unfold Enhanced.Convert_temperature
    rw [if_pos hs]
  · intro hs ht
    unfold Enhanced.Convert_temperature
    rw [if_neg hs, if_pos ht]
  · unfold Enhanced.Convert_temperature
    rw [if_neg (by decide : ¬ Get_type "K" = .UNKNOWN), if_pos Get_type_X]

/-- C5 witness: the amended claim at the concrete inputs
`(-1, "X", "C")` and `(-1, "K", "X")`. -/
theorem enhanced_unknown_scale_first_witness :
    Enhanced.Convert_temperature (-1) "X" "C" = .error (.UnknownScale .source "X") ∧
      Enhanced.Convert_temperature (-1) "K" "X" = .error (.UnknownScale .target "X") :=
  ⟨(enhanced_unknown_scale_first (-1) "X" "C").1 Get_type_X,
    (enhanced_unknown_scale_first (-1) "K" "X").2.2⟩

/-- C6.  `Is_valid_scale` accepts a string exactly when `Get_type` does
not map it to `UNKNOWN`; the whitelist has 19 literal entries. -/
theorem Is_valid_scale_iff_Get_type :
    (∀ s : String, Is_valid_scale s = true ↔ ¬ Get_type s = .UNKNOWN) ∧
    valid_scales.length = 19 := by
  refine ⟨?_, by decide⟩
  intro s
  unfold Get_type
  split_ifs with h1 h2 h3 h4 h5 h6 h7 h8
  · rcases h1 with h | h <;> subst h <;> decide
  · rcases h2 with h | h <;> subst h <;> decide
  · rcases h3 with h | h <;> subst h <;> decide
  · rcases h4 with h | h <;> subst h <;> decide
  · rcases h5 with h | h | h <;> subst h <;> decide
  · rcases h6 with h | h | h <;> subst h <;> decide
  · rcases h7 with h | h <;> subst h <;> decide
  · rcases h8 with h | h | h <;> subst h <;> decide
  · constructor
    · intro hv
      exfalso
      simp only [Is_valid_scale, valid_scales, List.any_eq_true, List.mem_cons,
        List.not_mem_nil, or_false, decide_eq_true_eq] at hv
      obtain ⟨x, hx, hsx⟩ := hv
      subst hsx
      tauto
    · intro h
      exact absurd rfl h

/-- C7.  The casing whitelist of the registry: `"Re"`, `"re"`, `"RE"`
resolve to Reaumur; `"R"` and `"r"` resolve to Rankine; every string
outside the 19-entry whitelist resolves to `UNKNOWN`, in particular
`"X"` and the mixed-case `"rE"`. -/
theorem Get_type_casing_whitelist :
    Get_type "Re" = .REAUMUR ∧ Get_type "re" = .REAUMUR ∧ Get_type "RE" = .REAUMUR ∧
    Get_type "R" = .RANKINE ∧ Get_type "r" = .RANKINE ∧
    (∀ s : String, s ∉ valid_scales → Get_type s = .UNKNOWN) ∧
    Get_type "X" = .UNKNOWN ∧ Get_type "rE" = .UNKNOWN := by
  refine ⟨by decide, by decide, by decide, by decide, by decide, ?_, by decide, by decide⟩
  intro s hs
  unfold Get_type
  split_ifs with h1 h2 h3 h4 h5 h6 h7 h8
  · rcases h1 with h | h <;> subst h <;> exact absurd (by decide) hs
  · rcases h2 with h | h <;> subst h <;> exact absurd (by decide) hs
  · rcases h3 with h | h <;> subst h <;> exact absurd (by decide) hs
  · rcases h4 with h | h <;> subst h <;> exact absurd (by decide) hs
  · rcases h5 with h | h | h <;> subst h <;> exact absurd (by decide) hs
  · rcases h6 with h | h | h <;> subst h <;> exact absurd (by decide) hs
  · rcases h7 with h | h <;> subst h <;> exact absurd (by decide) hs
  · rcases h8 with h | h | h <;> subst h <;> exact absurd (by decide) hs
  · rfl

/-- C7 witness: the non-whitelisted string `"X"` resolves to
`UNKNOWN`. -/
theorem Get_type_casing_whitelist_witness :
    "X" ∉ valid_scales ∧ Get_type "X" = .UNKNOWN :=
  ⟨by decide, Get_type_casing_whitelist.2.2.2.2.2.1 "X" (by decide)⟩

/-- C9.  On every valid input — both identifiers resolve and the
absolute-scale guard is satisfied — `Convert_temperature` of
`gradus_fixed.c` and of `gradus_enhanced.c` return the same number. -/
theorem convert_versions_equivalent (v : ℚ) (src tgt : String)
    (hs : ¬ Get_type src = .UNKNOWN) (ht : ¬ Get_type tgt = .UNKNOWN)
    (hv : (Get_type src = .KELVIN ∨ Get_type src = .RANKINE) → 0 ≤ v) :
    Fixed.Convert_temperature v src tgt = Enhanced.Convert_temperature v src tgt := by
  have hg : ¬ ((Get_type src = .KELVIN ∨ Get_type src = .RANKINE) ∧ v < 0) :=
    fun h => absurd h.2 (not_lt.mpr (hv h.1))
  rw [Fixed_Convert_eval v src tgt hs hg, Enhanced_Convert_eval v src tgt hs ht hg]

/-- C9 witness: the two implementations agree at `(0, "K", "C")`. -/
theorem convert_versions_equivalent_witness :
    Fixed.Convert_temperature 0 "K" "C" = Enhanced.Convert_temperature 0 "K" "C" :=
  convert_versions_equivalent 0 "K" "C" (by decide) (by decide) (fun _ => le_refl 0)

/-- C10.  The absolute-scale guard is strict (`value < 0`), so exact
zero on a Kelvin or Rankine source is accepted by both implementations
for every known target.  In the rational model IEEE negative zero
coincides with zero, and the C comparison `-0.0 < 0` is false exactly as
`0.0 < 0` is, so the value 0 here covers both `0.0` and `-0.0`. -/
theorem zero_accepted_absolute_scales (tgt : String)
    (ht : ¬ Get_type tgt = .UNKNOWN) :
    (∃ y, Enhanced.Convert_temperature 0 "K" tgt = .ok y) ∧
    (∃ y, Enhanced.Convert_temperature 0 "R" tgt = .ok y) ∧
    (∃ y, Fixed.Convert_temperature 0 "K" tgt = .ok y) ∧
    ∃ y, Fixed.Convert_temperature 0 "R" tgt = .ok y := by
  have hg : ∀ t : Temperature, ¬ ((t = .KELVIN ∨ t = .RANKINE) ∧ (0 : ℚ) < 0) :=
    fun t h => absurd h.2 (lt_irrefl 0)
  refine ⟨?_, ?_, ?_, ?_⟩
  · rw [Enhanced_Convert_eval 0 "K" tgt (by decide) ht (hg _)]
    exact target_switch_ok tgt (Get_type tgt) _ ht
  · rw [Enhanced_Convert_eval 0 "R" tgt (by decide) ht (hg _)]
    exact target_switch_ok tgt (Get_type tgt) _ ht
  · rw [Fixed_Convert_eval 0 "K" tgt (by decide) (hg _)]
    exact target_switch_ok tgt (Get_type tgt) _ ht
  · rw [Fixed_Convert_eval 0 "R" tgt (by decide) (hg _)]
    exact target_switch_ok tgt (Get_type tgt) _ ht

/-- C10 witness: zero Kelvin and zero Rankine convert successfully to
Celsius in both implementations. -/
theorem zero_accepted_absolute_scales_witness :
    ((∃ y, Enhanced.Convert_temperature 0 "K" "C" = .ok y) ∧
      (∃ y, Enhanced.Convert_temperature 0 "R" "C" = .ok y) ∧
      (∃ y, Fixed.Convert_temperature 0 "K" "C" = .ok y) ∧
      ∃ y, Fixed.Convert_temperature 0 "R" "C" = .ok y) :=
  zero_accepted_absolute_scales "C" (by decide)

/-- C8.  Negative-zero suppression in the display layer: any result with
magnitude below 0.005 that is not exactly zero is replaced by 0 before
formatting, so the result -0.001 renders as `"0.00"` rather than the
`"-0.00"` that direct 2-decimal formatting would produce. -/
theorem negative_zero_suppression :
    (∀ r : ℚ, |r| < 0.005 → r ≠ 0 → suppress_negative_zero r = 0) ∧
    suppress_negative_zero (-0.001) = 0 ∧
    format2 (suppress_negative_zero (-0.001)) = "0.00" ∧
    format2 (-0.001) = "-0.00" := by
  have habs : |(-0.001 : ℚ)| = 0.001 := by
    rw [abs_of_nonpos (by norm_num : (-0.001 : ℚ) ≤ 0)]
    norm_num
  have hsup : suppress_negative_zero (-0.001) = 0 := by
    unfold suppress_negative_zero
    rw [if_pos ⟨by rw [habs]; norm_num, by norm_num⟩]
  have hfmt0 : format2 0 = "0.00" := by
    unfold format2
    rw [show (⌊|(0 : ℚ)| * 100 + 1 / 2⌋ : ℤ) = 0 by
      rw [abs_of_nonneg (le_refl (0 : ℚ))]
      norm_num]
    rw [if_neg (by norm_num : ¬ (0 : ℚ) < 0)]
    rfl
  refine ⟨?_, hsup, ?_, ?_⟩
  · intro r h1 h2
    unfold suppress_negative_zero
    rw [if_pos ⟨h1, h2⟩]
  · rw [hsup, hfmt0]
  · unfold format2
    rw [show (⌊|(-0.001 : ℚ)| * 100 + 1 / 2⌋ : ℤ) = 0 by
      rw [habs]
      norm_num]
    rw [if_pos (by norm_num : (-0.001 : ℚ) < 0)]
    rfl

/-- C8 witness: the suppression rule applied at the concrete result
-0.001, whose magnitude is below 0.005. -/
theorem negative_zero_suppression_witness :
    suppress_negative_zero (-0.001) = 0 :=
  negative_zero_suppression.1 (-0.001)
    (by rw [abs_of_nonpos (by norm_num : (-0.001 : ℚ) ≤ 0)]; norm_num)
    (by norm_num)
